import Mathlib

/-!
Verification of the Cupido order-fulfillment service (Python sources under
`src/`) against its natural-language specification.  Python functions are
shallowly embedded as executable Lean definitions; external collaborators
(Supabase persistence, UAZAPI transport, ElevenLabs synthesis, the server
clock, JSON/ISO-8601 parsing) are passed in explicitly as environment
records, so every embedded handler is a pure function of its inputs.
-/

/- ── Python string primitives ─────────────────────────────────────────
The Python sources use `str.replace`, `str.strip`, `str.lower`, substring
containment (`in`) and `re.sub(r"[^\d]", "", s)`.  They are embedded as
executable functions over `String.data` (lists of characters). -/

/-- Fuel-bounded `str.replace`: replaces every occurrence of `pat` (all call
sites pass a non-empty pattern).  The fuel argument is initialised to the
length of the subject string, which bounds the recursion. -/
def replaceFuel (pat rep : List Char) : Nat → List Char → List Char
  | _, [] => []
  | 0, s => s
  | fuel+1, c :: rest =>
    if 0 < pat.length && pat.isPrefixOf (c :: rest) then
      rep ++ replaceFuel pat rep fuel ((c :: rest).drop pat.length)
    else c :: replaceFuel pat rep fuel rest

/-- Python `s.replace(pat, rep)`. -/
def pyReplace (s pat rep : String) : String :=
  String.mk (replaceFuel pat.data rep.data s.data.length s.data)

/-- Python `s.strip()`: drop whitespace from both ends. -/
def pyStrip (s : String) : String :=
  String.mk (((s.data.dropWhile Char.isWhitespace).reverse.dropWhile Char.isWhitespace).reverse)

/-- Python `s.lower()` (ASCII case folding, which is all the sources need). -/
def pyLower (s : String) : String := String.mk (s.data.map Char.toLower)

/-- Python `re.sub(r"[^\d]", "", s)`: keep only digit characters. -/
def pyDigitsOnly (s : String) : String := String.mk (s.data.filter Char.isDigit)

/-- Python string truthiness: a string is truthy iff non-empty. -/
def pyTruthy (s : String) : Bool := !s.data.isEmpty

/-- Substring test on character lists (Python `needle in hay`). -/
def isSubList (needle : List Char) (hay : List Char) : Bool :=
  match hay with
  | [] => needle.isEmpty
  | c :: rest => needle.isPrefixOf (c :: rest) || isSubList needle rest

/-- Python `needle in hay` for strings. -/
def containsSub (hay needle : String) : Bool := isSubList needle.data hay.data

/-- Python `a or b` for an optional string `a` (where `None` and `""` are
falsy) with a string fallback `b`. -/
def pyOrStr (a : Option String) (b : String) : String :=
  match a with
  | some s => if pyTruthy s then s else b
  | none => b

/- ── src/utils/validators.py ──────────────────────────────────────────── -/

/-- `validate_phone` (src/utils/validators.py:8-14): strip WhatsApp suffixes
and non-digits, then require 10-15 digits. -/
def validate_phone (phone : String) : Bool :=
  if !pyTruthy phone then false
  else
    let phone_clean := pyReplace (pyReplace phone "@s.whatsapp.net" "") "@c.us" ""
    let phone_clean := pyDigitsOnly phone_clean
    decide (10 ≤ phone_clean.data.length ∧ phone_clean.data.length ≤ 15)

/-- `clean_phone_for_whatsapp` (src/utils/validators.py:25-34): digits only,
with Brazil country code prepended for 10/11-digit numbers. -/
def clean_phone_for_whatsapp (phone : String) : String :=
  let phone_clean := pyReplace (pyReplace phone "@s.whatsapp.net" "") "@c.us" ""
  let phone_clean := pyDigitsOnly phone_clean
  if phone_clean.data.length = 11 then "55" ++ phone_clean      -- DDD + 9 digits
  else if phone_clean.data.length = 10 then "55" ++ phone_clean -- DDD + 8 digits (landline)
  else phone_clean

/-- Spec-side description used by claim C10: the digit string that remains
after stripping the WhatsApp suffixes and every non-digit character. -/
def digitsAfterStrip (phone : String) : String :=
  pyDigitsOnly (pyReplace (pyReplace phone "@s.whatsapp.net" "") "@c.us" "")

/- ── src/models.py ────────────────────────────────────────────────────── -/

/-- `PlanType` (src/models.py:12-16). -/
inductive PlanType
  | basico
  | com_audio
  | multi_mensagem
  | premium_historia
deriving DecidableEq, Repr

/-- String value of a `PlanType` (the `str`-valued enum members). -/
def PlanType.toStr : PlanType → String
  | .basico => "basico"
  | .com_audio => "com_audio"
  | .multi_mensagem => "multi_mensagem"
  | .premium_historia => "premium_historia"

/-- Python `PlanType(s)` constructor lookup; `none` models the `ValueError`
raised on an unknown value. -/
def planTypeOfString (s : String) : Option PlanType :=
  if s = "basico" then some .basico
  else if s = "com_audio" then some .com_audio
  else if s = "multi_mensagem" then some .multi_mensagem
  else if s = "premium_historia" then some .premium_historia
  else none

/-- `OrderStatus` (src/models.py:19-25). -/
inductive OrderStatus
  | pending
  | approved
  | submitted
  | delivered
  | refunded
  | canceled
deriving DecidableEq, Repr

/- ── src/plans.py ─────────────────────────────────────────────────────── -/

/-- `PlanConfig` (src/plans.py:11-19).  NOTE: the dataclass defines no
`audio_char_limit` field, although src/routes/form.py:98 reads one. -/
structure PlanConfig where
  plan_type : PlanType
  max_messages : Nat
  has_audio : Bool
  has_images : Bool
  has_presentation : Bool
  label : String
  price : Nat := 0
deriving DecidableEq, Repr

/-- `PLANS` / `get_plan_config` (src/plans.py:22-59, 97-99): a total lookup
over the fixed table of four plan variants. -/
def get_plan_config : PlanType → PlanConfig
  | .basico =>
    { plan_type := .basico, max_messages := 1, has_audio := false,
      has_images := false, has_presentation := false,
      label := "Mensagem Anônima", price := 6 }
  | .com_audio =>
    { plan_type := .com_audio, max_messages := 1, has_audio := true,
      has_images := false, has_presentation := false,
      label := "Mensagem + Áudio", price := 14 }
  | .multi_mensagem =>
    { plan_type := .multi_mensagem, max_messages := 5, has_audio := true,
      has_images := false, has_presentation := false,
      label := "Múltiplas Mensagens", price := 15 }
  | .premium_historia =>
    { plan_type := .premium_historia, max_messages := 1, has_audio := true,
      has_images := true, has_presentation := true,
      label := "História Premium", price := 25 }

/-- `PRODUCT_ID_MAP` (src/plans.py:63-68): every entry is commented out in
the source, so the map is empty. -/
def PRODUCT_ID_MAP : List (String × PlanType) := []

/-- `PRODUCT_NAME_MAP` (src/plans.py:71-79), in source (insertion) order. -/
def PRODUCT_NAME_MAP : List (String × PlanType) :=
  [("cupido basico", .basico),
   ("cupido com audio", .com_audio),
   ("cupido audio", .com_audio),
   ("cupido multi", .multi_mensagem),
   ("cupido multiplas", .multi_mensagem),
   ("cupido premium", .premium_historia),
   ("cupido historia", .premium_historia)]

/-- `resolve_plan` (src/plans.py:82-94): exact product-id match first, then
first case-insensitive keyword hit on the product name, else `basico`. -/
def resolve_plan (product_id : Option String) (product_name : Option String) : PlanType :=
  match (match product_id with
         | some pid => if pyTruthy pid then PRODUCT_ID_MAP.lookup pid else none
         | none => none) with
  | some p => p
  | none =>
    match product_name with
    | some name =>
      if pyTruthy name then
        let name_lower := pyStrip (pyLower name)
        match PRODUCT_NAME_MAP.find? (fun kv => containsSub name_lower kv.1) with
        | some kv => kv.2
        | none => PlanType.basico
      else PlanType.basico
    | none => PlanType.basico

/- ── Order / Message / Presentation rows ──────────────────────────────
Database rows are embedded as structures; `delivered_at = "now()"` writes
are modelled by the flag `deliveredAtSet`. -/

/-- A `cupido_orders` row (see the columns written in src/services and
src/routes). -/
structure Order where
  id : String
  formToken : String
  saleId : Option String := none
  plan : String
  status : OrderStatus
  buyerName : String := ""
  buyerPhone : String := ""
  buyerEmail : String := ""
  productName : String := ""
  isTest : Bool := false
  recipientPhone : Option String := none
  messagesSent : Nat := 0
  deliveredAtSet : Bool := false
deriving DecidableEq, Repr

/-- A `cupido_messages` row (columns per src/routes/form.py:124-132 and
src/services/supabase_service.py:209-217).  `scheduledAt` is the parsed
UTC instant as an integer timestamp. -/
structure Message where
  id : String
  orderId : String
  messageIndex : Nat
  content : String
  senderNickname : String
  audioText : Option String := none
  scheduledAt : Option Int := none
  delivered : Bool := false
  audioUrl : Option String := none
deriving DecidableEq, Repr

/-- One slide of a presentation (src/routes/form.py:238). -/
structure Slide where
  image_url : String
  caption : String
deriving DecidableEq, Repr

/-- A `cupido_presentations` row (src/routes/form.py:244-248). -/
structure Presentation where
  id : String
  orderId : String
  title : String
  slides : List Slide
  viewCount : Nat := 0
deriving DecidableEq, Repr

/- ── src/services/cupido_service.py — delivery operations ─────────────
Transport results are inputs: `uazapi_service.send_text` / `send_audio`
return a dict whose `"success"` key is modelled by a `Bool`; the body text
built from the templated strings is data handed to the transport and does
not influence control flow, so the embeddings carry the parameters that
feed it without rebuilding the literal. -/

/-- Transport/synthesis outcomes consumed by `deliver_basico`. -/
structure BasicoEnv where
  sendTextSuccess : Bool
deriving DecidableEq, Repr

/-- `CupidoService.deliver_basico` (src/services/cupido_service.py:97-120):
one text send; the order is marked delivered (status + `delivered_at`) only
when the send reports success. -/
def deliver_basico (order : Order) (message_text sender_nickname : String)
    (env : BasicoEnv) : Bool × Order :=
  match order.recipientPhone with
  | none => (false, order)
  | some _recipient =>
    let _ := message_text
    let _ := sender_nickname
    if env.sendTextSuccess then
      (true, { order with status := .delivered, deliveredAtSet := true })
    else
      (false, order)

/-- Transport/synthesis outcomes consumed by `deliver_com_audio`. -/
structure ComAudioEnv where
  sendTextSuccess : Bool
  audioUrl : Option String   -- result of `elevenlabs_service.generate_and_upload`
  sendAudioSuccess : Bool
deriving DecidableEq, Repr

/-- `CupidoService.deliver_com_audio` (src/services/cupido_service.py:122-158):
sends the text (result ignored), then, when audio generation yielded a URL,
sends the audio (result ignored) and writes the URL onto the order's first
message row; finally marks the order delivered UNCONDITIONALLY and returns
`True`, regardless of any transport result. -/
def deliver_com_audio (order : Order) (message_text sender_nickname : String)
    (messages : List Message) (env : ComAudioEnv) : Bool × Order × List Message :=
  match order.recipientPhone with
  | none => (false, order, messages)
  | some _recipient =>
    let _ := message_text
    let _ := sender_nickname
    -- send_text result is not inspected
    let messages :=
      match env.audioUrl with
      | some url =>
        -- send_audio result is not inspected; update first message with audio URL
        match messages with
        | [] => messages
        | m :: rest => { m with audioUrl := some url } :: rest
      | none => messages
    (true, { order with status := .delivered, deliveredAtSet := true }, messages)

/-- Per-text transport outcomes consumed by `deliver_multi`. -/
structure MultiEnv where
  sendResults : List Bool    -- results of `send_multiple_messages`, one per text
deriving DecidableEq, Repr

/-- `CupidoService.deliver_multi` (src/services/cupido_service.py:160-181):
sends the intro plus the message contents; the list of send results is not
inspected and the order is marked delivered unconditionally. -/
def deliver_multi (order : Order) (messages_data : List Message)
    (env : MultiEnv) : Bool × Order :=
  match order.recipientPhone with
  | none => (false, order)
  | some _recipient =>
    let _texts := messages_data.filterMap
      (fun m => if pyTruthy m.content then some m.content else none)
    let _ := env.sendResults
    (true, { order with status := .delivered, deliveredAtSet := true })

/-- Transport outcomes consumed by `deliver_premium`. -/
structure PremiumEnv where
  sendTextSuccess : Bool
deriving DecidableEq, Repr

/-- `CupidoService.deliver_premium` (src/services/cupido_service.py:183-209):
sends one link message; the order is marked delivered only when the send
reports success. -/
def deliver_premium (order : Order) (presentation_id : String)
    (env : PremiumEnv) : Bool × Order :=
  match order.recipientPhone with
  | none => (false, order)
  | some _recipient =>
    let _url := presentation_id
    if env.sendTextSuccess then
      (true, { order with status := .delivered, deliveredAtSet := true })
    else
      (false, order)

/- ── src/services/elevenlabs_service.py — audio sub-flow ─────────────── -/

/-- Observable external effects of the audio sub-flow, in call order. -/
inductive AudioEvent
  | generate     -- ElevenLabs text-to-speech call
  | upload       -- upload to Supabase storage
  | send         -- WhatsApp audio send
  | deleteFile   -- removal from Supabase storage
deriving DecidableEq, Repr

/-- External outcomes consumed by `generate_send_and_cleanup`. -/
structure AudioFlowEnv where
  generateOk : Bool          -- `generate_audio` returned bytes
  uploadUrl : Option String  -- `upload_file` result (public URL), `none` on failure
  sendSuccess : Bool         -- `uazapi_service.send_audio` success flag
deriving DecidableEq, Repr

/-- Storage path used by the audio sub-flow
(src/services/elevenlabs_service.py:83). -/
def audioStoragePath (order_id : String) (message_index : Nat) : String :=
  "audio/" ++ order_id ++ "_" ++ toString message_index ++ ".mp3"

/-- `ElevenLabsService.generate_send_and_cleanup`
(src/services/elevenlabs_service.py:73-101): generate → upload → send; the
file is deleted from storage only when the send reported success, otherwise
it is left in place.  Returns (public URL, new storage contents, event
trace). -/
def generate_send_and_cleanup (order_id : String) (_recipient_phone : String)
    (message_index : Nat) (env : AudioFlowEnv) (storage : List String) :
    Option String × List String × List AudioEvent :=
  if !env.generateOk then
    (none, storage, [AudioEvent.generate])
  else
    let file_path := audioStoragePath order_id message_index
    match env.uploadUrl with
    | none => (none, storage, [AudioEvent.generate, AudioEvent.upload])
    | some public_url =>
      let storage := storage ++ [file_path]
      -- send audio via WhatsApp, then clean up only after a successful send
      if env.sendSuccess then
        (some public_url, storage.erase file_path,
         [AudioEvent.generate, AudioEvent.upload, AudioEvent.send, AudioEvent.deleteFile])
      else
        (some public_url, storage,
         [AudioEvent.generate, AudioEvent.upload, AudioEvent.send])

/- ── src/services/supabase_service.py — the sweep's due-message query ── -/

/-- The row predicate of `get_pending_scheduled_messages`
(src/services/supabase_service.py:192-207): `delivered = false`,
`scheduled_at` non-null, `scheduled_at <= now`. -/
def pendingPred (now_iso : Int) (m : Message) : Bool :=
  !m.delivered && m.scheduledAt.isSome && decide (m.scheduledAt.getD 0 ≤ now_iso)

/-- `SupabaseService.get_pending_scheduled_messages`: the filtered rows,
ordered by `scheduled_at` ascending. -/
def get_pending_scheduled_messages (msgs : List Message) (now_iso : Int) : List Message :=
  List.insertionSort (fun a b => a.scheduledAt.getD 0 ≤ b.scheduledAt.getD 0)
    (msgs.filter (pendingPred now_iso))

/- ── Delivery engine: single-message operation ────────────────────────── -/

/-- Transport/synthesis outcomes consumed by `deliver_single_message`. -/
structure DeliverEnv where
  sendSuccess : Bool
  audioUrl : Option String := none
deriving DecidableEq, Repr

/-- Modelled from the spec: `CupidoService.deliver_single_message` is invoked
by `submit_form` (src/routes/form.py:169) and by the scheduler loop
(src/api.py:56) but is not defined in src/services/cupido_service.py.  Per
spec §4.2, `deliverSingleMessage(order, message)` builds the templated text,
optionally invokes the Synthesis Gateway when the message carries synthesis
text and the plan allows audio, sends via the Transport Gateway, and on
success marks the message delivered and records the resulting audio URL; it
returns a success boolean and does not retry on failure. -/
def deliver_single_message (order : Order) (msg : Message) (env : DeliverEnv) :
    Bool × Message :=
  match order.recipientPhone with
  | none => (false, msg)
  | some _recipient =>
    let cfg := (planTypeOfString order.plan).map get_plan_config
    let audio_url : Option String :=
      if msg.audioText.isSome && (cfg.map (·.has_audio)).getD false then env.audioUrl
      else none
    if env.sendSuccess then
      (true, { msg with delivered := true, audioUrl := audio_url })
    else
      (false, msg)

/- ── src/routes/form.py — `submit_form` ──────────────────────────────── -/

/-- The JSON responses `submit_form` can produce, one constructor per
`return` site. -/
inductive SubmitResponse
  | orderNotFound            -- 404 "Order not found"
  | planValueError           -- 500: `PlanType(order["plan"])` raises ValueError
  | limitReached             -- 400 "Todas as mensagens ja foram enviadas"
  | invalidPhone             -- 400 "Telefone invalido"
  | emptyMessage             -- 400 "Mensagem nao pode ser vazia"
  | audioAttrError           -- 500: AttributeError on `plan_config.audio_char_limit`
  | invalidSchedule          -- 400 "Data de agendamento invalida"
  | saveFailed               -- 500 "Falha ao salvar mensagem"
  | scheduledResp (remaining : Int)  -- 200 {"status": "scheduled"}
  | deliveryFailed           -- 500 "Falha ao enviar mensagem"
  | okResp (remaining : Int)         -- 200 {"status": "ok"}
deriving DecidableEq, Repr

/-- HTTP status code of each `submit_form` response. -/
def SubmitResponse.statusCode : SubmitResponse → Nat
  | .orderNotFound => 404
  | .planValueError => 500
  | .limitReached => 400
  | .invalidPhone => 400
  | .emptyMessage => 400
  | .audioAttrError => 500
  | .invalidSchedule => 400
  | .saveFailed => 500
  | .scheduledResp _ => 200
  | .deliveryFailed => 500
  | .okResp _ => 200

/-- The JSON body of a submit request (src/routes/form.py:85-89); a missing
or null field is modelled by `""`, matching `data.get(..., "")` falsiness. -/
structure FormData where
  recipientPhone : String := ""
  message : String := ""
  senderNickname : String := "Alguem especial"
  audioTextRaw : String := ""
  scheduledAtRaw : String := ""
deriving Repr

/-- External outcomes consumed by `submit_form`: the ISO-8601 parser
(`datetime.fromisoformat`, with naive timestamps defaulted to UTC), the
server clock, the message-insert outcome and the transport outcome. -/
structure SubmitEnv where
  parseIso : String → Option Int
  now : Int
  createMessageOk : Bool
  newMessageId : String
  deliver : DeliverEnv

/-- Result of one `submit_form` call: the response plus the updated order
row, message rows, and whether the inline single-message delivery was
invoked. -/
structure SubmitOutcome where
  response : SubmitResponse
  order : Option Order
  messages : List Message
  inlineDeliveryInvoked : Bool
deriving Repr

/-- The `message_data` dict saved by `submit_form` (src/routes/form.py:124-132). -/
def newMessageRow (order : Order) (messages_sent : Nat) (data : FormData)
    (audio_text : Option String) (env : SubmitEnv)
    (scheduled_dt : Option Int) : Message :=
  { id := env.newMessageId, orderId := order.id,
    messageIndex := messages_sent, content := pyStrip data.message,
    senderNickname := data.senderNickname, audioText := audio_text,
    scheduledAt := scheduled_dt, delivered := false }

/-- The tail of `submit_form` after validation and timestamp parsing
(src/routes/form.py:123-185): save the message row, bump `messages_sent`,
then either defer to the scheduler or deliver inline; on the last message
the order status is finalized.  `order` already carries the updated
recipient phone. -/
def submit_save_and_deliver (order : Order) (plan_config : PlanConfig)
    (messages_sent : Nat) (messages : List Message) (data : FormData)
    (audio_text : Option String) (env : SubmitEnv)
    (scheduled_dt : Option Int) : SubmitOutcome :=
  let message_data : Message :=
    newMessageRow order messages_sent data audio_text env scheduled_dt
  if !env.createMessageOk then ⟨.saveFailed, some order, messages, false⟩
  else
    let messages2 := messages ++ [message_data]
    let new_messages_sent := messages_sent + 1
    let order2 := { order with messagesSent := new_messages_sent }
    let new_remaining : Int := (plan_config.max_messages : Int) - new_messages_sent
    let is_scheduled :=
      match scheduled_dt with
      | some t => decide (env.now < t)
      | none => false
    if is_scheduled then
      -- deferred: the scheduler loop will deliver it
      let order3 :=
        if new_remaining ≤ 0 then { order2 with status := .submitted } else order2
      ⟨.scheduledResp new_remaining, some order3, messages2, false⟩
    else
      -- deliver immediately (order_fresh re-fetched by token = order2)
      let res := deliver_single_message order2 message_data env.deliver
      if !res.1 then ⟨.deliveryFailed, some order2, messages2, true⟩
      else
        let messages3 := messages2.map (fun m => if m.id = res.2.id then res.2 else m)
        let order3 :=
          if new_remaining ≤ 0 then
            { order2 with status := .delivered, deliveredAtSet := true }
          else order2
        ⟨.okResp new_remaining, some order3, messages3, true⟩

/-- `submit_form` (src/routes/form.py:68-189). -/
def submit_form (orderRow : Option Order) (messages : List Message)
    (data : FormData) (env : SubmitEnv) : SubmitOutcome :=
  match orderRow with
  | none => ⟨.orderNotFound, none, messages, false⟩
  | some order =>
    match planTypeOfString order.plan with
    | none => ⟨.planValueError, some order, messages, false⟩
    | some plan_type =>
      let plan_config := get_plan_config plan_type
      let messages_sent := order.messagesSent
      let remaining : Int := (plan_config.max_messages : Int) - messages_sent
      if remaining ≤ 0 then ⟨.limitReached, some order, messages, false⟩
      else
        let audio_text : Option String :=
          if pyTruthy data.audioTextRaw then some (pyStrip data.audioTextRaw) else none
        let scheduled_at : Option String :=
          if pyTruthy data.scheduledAtRaw then some (pyStrip data.scheduledAtRaw) else none
        if !validate_phone data.recipientPhone then
          ⟨.invalidPhone, some order, messages, false⟩
        else if !pyTruthy (pyStrip data.message) then
          ⟨.emptyMessage, some order, messages, false⟩
        else if (audio_text.map pyTruthy).getD false then
          -- form.py:98 evaluates `plan_config.audio_char_limit`, but the
          -- PlanConfig dataclass (src/plans.py:11-19) defines no such field:
          -- the attribute access raises AttributeError for every truthy
          -- audio_text, caught at form.py:187-189 → 500
          ⟨.audioAttrError, some order, messages, false⟩
        else
          let recipient_clean := clean_phone_for_whatsapp data.recipientPhone
          -- recipient_phone is always updated on the order (form.py:108-111)
          let order1 := { order with recipientPhone := some recipient_clean }
          match scheduled_at with
          | some s =>
            if pyTruthy s then
              match env.parseIso s with
              | none => ⟨.invalidSchedule, some order1, messages, false⟩
              | some t =>
                submit_save_and_deliver order1 plan_config messages_sent messages
                  data audio_text env (some t)
            else
              submit_save_and_deliver order1 plan_config messages_sent messages
                data audio_text env none
          | none =>
            submit_save_and_deliver order1 plan_config messages_sent messages
              data audio_text env none

/- ── src/routes/form.py — `upload_premium` ───────────────────────────── -/

/-- The responses `upload_premium` can produce, one constructor per `return`
site that is reachable. -/
inductive UploadResponse
  | orderNotFound        -- 404 "Order not found"
  | alreadySubmitted     -- 400 "Already submitted"
  | invalidPhone         -- 400 "Telefone invalido"
  | noImages             -- 400 "Nenhuma imagem enviada"
  | presentationFailed   -- 500 "Falha ao criar apresentacao"
  | deliverTypeError     -- 500: TypeError on the deliver_premium call
deriving DecidableEq, Repr

/-- HTTP status code of each `upload_premium` response. -/
def UploadResponse.statusCode : UploadResponse → Nat
  | .orderNotFound => 404
  | .alreadySubmitted => 400
  | .invalidPhone => 400
  | .noImages => 400
  | .presentationFailed => 500
  | .deliverTypeError => 500

/-- One entry of the multipart file list, with the outcome of its
`upload_image` storage call. -/
structure UploadFileEntry where
  filename : String
  uploadUrl : Option String
deriving DecidableEq, Repr

/-- The multipart form of `upload_premium` (src/routes/form.py:196-201).
`captionsParse` is the `json.loads(slides_data)` result; `none` models a
`JSONDecodeError`. -/
structure UploadForm where
  title : String := "Uma historia para voce"
  senderNickname : String := "Alguem especial"
  recipientPhone : String := ""
  captionsParse : Option (List String) := some []
  audioTextRaw : String := ""
  files : List UploadFileEntry := []
deriving Repr

/-- External outcomes consumed by `upload_premium`. -/
structure UploadEnv where
  createPresentationOk : Bool
  newPresentationId : String
  createMessageOk : Bool
  newMessageId : String
deriving Repr

/-- Result of one `upload_premium` call. -/
structure UploadOutcome where
  response : UploadResponse
  order : Option Order
  presentations : List Presentation
  messages : List Message
deriving Repr

/-- The slide-building loop (src/routes/form.py:224-238): skip files with an
empty filename, keep only successful uploads, caption by original index with
`""` fallback. -/
def buildSlides (files : List UploadFileEntry) (captions : List String) : List Slide :=
  files.enum.filterMap (fun p =>
    if !pyTruthy p.2.filename then none
    else
      match p.2.uploadUrl with
      | some url => some { image_url := url, caption := captions.getD p.1 "" }
      | none => none)

/-- `upload_premium` (src/routes/form.py:192-282). -/
def upload_premium (orderRow : Option Order) (data : UploadForm)
    (presentations : List Presentation) (messages : List Message)
    (env : UploadEnv) : UploadOutcome :=
  match orderRow with
  | none => ⟨.orderNotFound, none, presentations, messages⟩
  | some order =>
    if order.status = .submitted ∨ order.status = .delivered then
      ⟨.alreadySubmitted, some order, presentations, messages⟩
    else if !validate_phone data.recipientPhone then
      ⟨.invalidPhone, some order, presentations, messages⟩
    else
      let recipient_clean := clean_phone_for_whatsapp data.recipientPhone
      let captions := data.captionsParse.getD []
      let slides := buildSlides data.files captions
      if slides.isEmpty then
        ⟨.noImages, some order, presentations, messages⟩
      else if !env.createPresentationOk then
        ⟨.presentationFailed, some order, presentations, messages⟩
      else
        let pres : Presentation :=
          { id := env.newPresentationId, orderId := order.id,
            title := data.title, slides := slides }
        let presentations := presentations ++ [pres]
        let order :=
          { order with recipientPhone := some recipient_clean, status := .submitted }
        let audio_text_clean : Option String :=
          if pyTruthy data.audioTextRaw then some (pyStrip data.audioTextRaw) else none
        let messages :=
          if env.createMessageOk then
            messages ++ [{ id := env.newMessageId, orderId := order.id,
                           messageIndex := 0, content := data.title,
                           senderNickname := data.senderNickname,
                           audioText := audio_text_clean, delivered := false }]
          else messages
        -- form.py:273 calls `cupido_service.deliver_premium(order,
        -- presentation["id"], audio_text_clean)` with three arguments, but
        -- the method (src/services/cupido_service.py:183) takes two: the
        -- call raises TypeError, caught at form.py:280-282 → 500
        ⟨.deliverTypeError, some order, presentations, messages⟩

/- ── src/routes/webhook.py and order creation ─────────────────────────── -/

/-- Nested `customer` object of a Lowify payload. -/
structure LowCustomer where
  name : Option String := none
  email : Option String := none
  phone : Option String := none
deriving Repr

/-- Nested `product` object of a Lowify payload. -/
structure LowProduct where
  id : Option String := none
  name : Option String := none
deriving Repr

/-- A Lowify webhook payload (nested and flat field variants, as read by
src/services/cupido_service.py:34-43); `""` models a missing flat key. -/
structure WebhookPayload where
  event : String := ""
  saleId : String := ""
  customer : Option LowCustomer := none
  product : Option LowProduct := none
  customerName : String := ""
  customerPhone : String := ""
  customerEmail : String := ""
  productId : String := ""
  productName : String := ""
deriving Repr

/-- External outcomes consumed by `create_order_from_webhook`: the ids the
database assigns and whether the insert succeeds. -/
structure CreateOrderEnv where
  newOrderId : String
  newFormToken : String
  createOrderOk : Bool
deriving Repr

/-- `SupabaseService.get_order_by_sale_id`
(src/services/supabase_service.py:78-91). -/
def get_order_by_sale_id (orders : List Order) (sale_id : String) : Option Order :=
  orders.find? (fun o => o.saleId = some sale_id)

/-- `CupidoService.create_order_from_webhook`
(src/services/cupido_service.py:28-95): extract fields with flat fallbacks,
skip when the buyer phone is missing, return the existing order when one
already exists for the payload's sale id, otherwise resolve the plan and
insert a new `approved` order (the two form-link texts then sent to the
buyer are transport effects that carry no state). -/
def create_order_from_webhook (payload : WebhookPayload) (orders : List Order)
    (env : CreateOrderEnv) : Option Order × List Order :=
  let customer := payload.customer.getD {}
  let product := payload.product.getD {}
  let buyer_name := pyOrStr customer.name payload.customerName
  let buyer_phone := pyOrStr customer.phone payload.customerPhone
  let buyer_email := pyOrStr customer.email payload.customerEmail
  let product_id := pyOrStr product.id payload.productId
  let product_name := pyOrStr product.name payload.productName
  let sale_id := payload.saleId
  let event := payload.event
  if !pyTruthy buyer_phone then (none, orders)
  else
    match (if pyTruthy sale_id then get_order_by_sale_id orders sale_id else none) with
    | some existing => (some existing, orders)
    | none =>
      let plan_type :=
        resolve_plan (if pyTruthy product_id then some product_id else none)
          (some product_name)
      let is_test := if pyTruthy event then containsSub (pyLower event) "test" else false
      let order_data : Order :=
        { id := env.newOrderId, formToken := env.newFormToken,
          saleId := if pyTruthy sale_id then some sale_id else none,
          plan := plan_type.toStr, status := .approved,
          buyerName := buyer_name,
          buyerPhone := clean_phone_for_whatsapp buyer_phone,
          buyerEmail := buyer_email, productName := product_name,
          isTest := is_test }
      if !env.createOrderOk then (none, orders)
      else (some order_data, orders ++ [order_data])

/-- The webhook route's responses. -/
inductive WebhookResponse
  | ignored (event : String)                  -- 200 {"status": "ignored"}
  | okCreated (order_id form_token : String)  -- 200 {"status": "ok"}
  | createFailed                              -- 500
deriving DecidableEq, Repr

/-- `approved_events` (src/routes/webhook.py:29-35). -/
def approved_events : List String :=
  ["sale.approved", "sale.completed", "approved", "completed", "paid"]

/-- `webhook_lowify` (src/routes/webhook.py:19-69): only events containing
an approved keyword trigger order creation; everything else is acknowledged
and ignored. -/
def webhook_lowify (payload : WebhookPayload) (orders : List Order)
    (env : CreateOrderEnv) : WebhookResponse × List Order :=
  let event := payload.event
  let event_lower := if pyTruthy event then pyLower event else ""
  let is_approved := approved_events.any (fun e => containsSub event_lower e)
  if !is_approved then (.ignored event, orders)
  else
    match create_order_from_webhook payload orders env with
    | (some order, ordersOut) => (.okCreated order.id order.formToken, ordersOut)
    | (none, ordersOut) => (.createFailed, ordersOut)

/- ── helper lemmas about `submit_form` ────────────────────────────────── -/

/-- A string whose stripped form is truthy is itself truthy. -/
lemma pyTruthy_of_pyStrip {s : String} (h : pyTruthy (pyStrip s) = true) :
    pyTruthy s = true := by
  rcases hd : s.data with _ | ⟨c, rest⟩
  · exfalso
    simp [pyStrip, pyTruthy, hd] at h
  · simp [pyTruthy, hd]

/-- The saved row as the single-message delivery rewrites it on success:
`delivered` set, the audio URL recorded when the message carries synthesis
text and the plan allows audio. -/
def deliveredRow (order : Order) (sent : Nat) (data : FormData)
    (audio_text : Option String) (env : SubmitEnv) (sdt : Option Int) : Message :=
  { newMessageRow order sent data audio_text env sdt with
    delivered := true,
    audioUrl :=
      if audio_text.isSome
          && (((planTypeOfString order.plan).map get_plan_config).map
                (·.has_audio)).getD false
        then env.deliver.audioUrl else none }

/-- After all request validations pass, `submit_form` reduces to the
timestamp-parse dispatch over `submit_save_and_deliver`. -/
lemma submit_form_validated (order : Order) (pt : PlanType)
    (messages : List Message) (data : FormData) (env : SubmitEnv)
    (hplan : planTypeOfString order.plan = some pt)
    (hrem : ¬(((get_plan_config pt).max_messages : Int) - (order.messagesSent : Int) ≤ 0))
    (hphone : validate_phone data.recipientPhone = true)
    (hmsg : pyTruthy (pyStrip data.message) = true)
    (haudio : pyTruthy (pyStrip data.audioTextRaw) = false) :
    submit_form (some order) messages data env =
      (let order1 := { order with
         recipientPhone := some (clean_phone_for_whatsapp data.recipientPhone) }
       let audio_text : Option String :=
         if pyTruthy data.audioTextRaw then some (pyStrip data.audioTextRaw) else none
       if pyTruthy (pyStrip data.scheduledAtRaw) then
         match env.parseIso (pyStrip data.scheduledAtRaw) with
         | none => ⟨.invalidSchedule, some order1, messages, false⟩
         | some t =>
           submit_save_and_deliver order1 (get_plan_config pt) order.messagesSent
             messages data audio_text env (some t)
       else
         submit_save_and_deliver order1 (get_plan_config pt) order.messagesSent
           messages data audio_text env none) := by
  by_cases hA : pyTruthy data.audioTextRaw = true
  · by_cases hS : pyTruthy (pyStrip data.scheduledAtRaw) = true
    · have hRaw := pyTruthy_of_pyStrip hS
      simp [submit_form, hplan, hrem, hphone, hmsg, hA, haudio, hS, hRaw]
    · by_cases hRaw : pyTruthy data.scheduledAtRaw = true
      · simp [submit_form, hplan, hrem, hphone, hmsg, hA, haudio,
          Bool.eq_false_iff.mpr, eq_false_of_ne_true, hS, hRaw]
      · simp [submit_form, hplan, hrem, hphone, hmsg, hA, haudio, hS, hRaw]
  · by_cases hS : pyTruthy (pyStrip data.scheduledAtRaw) = true
    · have hRaw := pyTruthy_of_pyStrip hS
      simp [submit_form, hplan, hrem, hphone, hmsg, hA, hS, hRaw]
    · by_cases hRaw : pyTruthy data.scheduledAtRaw = true
      · simp [submit_form, hplan, hrem, hphone, hmsg, hA, hS, hRaw]
      · simp [submit_form, hplan, hrem, hphone, hmsg, hA, hS, hRaw]

/-- Outcome of the save-and-deliver tail when the timestamp is in the
future: the scheduled response, no inline delivery, the row appended
undelivered. -/
lemma save_scheduled_outcome (order : Order) (cfg : PlanConfig) (sent : Nat)
    (messages : List Message) (data : FormData) (audio_text : Option String)
    (env : SubmitEnv) (t : Int)
    (hsave : env.createMessageOk = true) (ht : env.now < t) :
    submit_save_and_deliver order cfg sent messages data audio_text env (some t) =
      ⟨.scheduledResp ((cfg.max_messages : Int) - ((sent + 1 : Nat) : Int)),
       some (if ((cfg.max_messages : Int) - ((sent + 1 : Nat) : Int)) ≤ 0
             then { order with messagesSent := sent + 1, status := .submitted }
             else { order with messagesSent := sent + 1 }),
       messages ++ [newMessageRow order sent data audio_text env (some t)],
       false⟩ := by
  simp [submit_save_and_deliver, hsave, ht]

/-- Outcome of the save-and-deliver tail when the timestamp is absent or
not in the future and the transport send succeeds: the ok response, inline
delivery invoked, the appended row rewritten as delivered. -/
lemma save_inline_ok_outcome (order : Order) (cfg : PlanConfig) (sent : Nat)
    (messages : List Message) (data : FormData) (audio_text : Option String)
    (env : SubmitEnv) (sdt : Option Int)
    (hsave : env.createMessageOk = true)
    (hns : (match sdt with | some t => decide (env.now < t) | none => false) = false)
    (r : String) (hr : order.recipientPhone = some r)
    (hsend : env.deliver.sendSuccess = true) :
    submit_save_and_deliver order cfg sent messages data audio_text env sdt =
      ⟨.okResp ((cfg.max_messages : Int) - ((sent + 1 : Nat) : Int)),
       some (if ((cfg.max_messages : Int) - ((sent + 1 : Nat) : Int)) ≤ 0
             then { order with messagesSent := sent + 1, status := OrderStatus.delivered, deliveredAtSet := true }
             else { order with messagesSent := sent + 1 }),
       (messages ++ [newMessageRow order sent data audio_text env sdt]).map
         (fun m => if m.id = env.newMessageId
                   then deliveredRow order sent data audio_text env sdt else m),
       true⟩ := by
  simp [submit_save_and_deliver, hsave, hns, deliver_single_message, hr, hsend,
    deliveredRow, newMessageRow]

/-- A row with `delivered = true` is never returned by the sweep's
due-message query. -/
lemma delivered_not_pending (m : Message) (l : List Message) (t : Int)
    (hm : m.delivered = true) : m ∉ get_pending_scheduled_messages l t := by
  intro hmem
  unfold get_pending_scheduled_messages at hmem
  rw [(List.perm_insertionSort _ _).mem_iff] at hmem
  have hp := List.of_mem_filter hmem
  simp [pendingPred, hm] at hp

/- ── claims C2 and C3 ────────────────────────────────────────────────── -/

/-- C2: a valid submission whose scheduled timestamp is absent or not in
the future is delivered inline by the submit handler via the single-message
delivery operation; the saved row ends up `delivered = true` and is never
returned by the sweep's due-message query (at any query time `tq`), because
`delivered = true` excludes it. -/
theorem C2_inline_delivery_excluded_from_sweep (order : Order) (pt : PlanType)
    (messages : List Message) (data : FormData) (env : SubmitEnv) (tq : Int)
    (hplan : planTypeOfString order.plan = some pt)
    (hrem : ¬(((get_plan_config pt).max_messages : Int) - (order.messagesSent : Int) ≤ 0))
    (hphone : validate_phone data.recipientPhone = true)
    (hmsg : pyTruthy (pyStrip data.message) = true)
    (haudio : pyTruthy (pyStrip data.audioTextRaw) = false)
    (hsave : env.createMessageOk = true)
    (hsend : env.deliver.sendSuccess = true)
    (hsched : pyTruthy (pyStrip data.scheduledAtRaw) = false
      ∨ (pyTruthy (pyStrip data.scheduledAtRaw) = true
         ∧ ∃ t, env.parseIso (pyStrip data.scheduledAtRaw) = some t ∧ t ≤ env.now)) :
    (let order1 := { order with
       recipientPhone := some (clean_phone_for_whatsapp data.recipientPhone) }
     let audio_text : Option String :=
       if pyTruthy data.audioTextRaw then some (pyStrip data.audioTextRaw) else none
     let scheduled_dt : Option Int :=
       if pyTruthy (pyStrip data.scheduledAtRaw)
       then env.parseIso (pyStrip data.scheduledAtRaw) else none
     let dRow := deliveredRow order1 order.messagesSent data audio_text env scheduled_dt
     let out := submit_form (some order) messages data env
     out.response = .okResp (((get_plan_config pt).max_messages : Int)
         - ((order.messagesSent + 1 : Nat) : Int))
     ∧ out.inlineDeliveryInvoked = true
     ∧ dRow ∈ out.messages
     ∧ dRow.delivered = true
     ∧ dRow ∉ get_pending_scheduled_messages out.messages tq) := by
  have heq := submit_form_validated order pt messages data env
    hplan hrem hphone hmsg haudio
  rcases hsched with hS | ⟨hS, t, hparse, hle⟩
  · simp only [hS] at heq
    simp only [Bool.false_eq_true, if_false] at heq
    rw [save_inline_ok_outcome _ _ _ _ _ _ _ _ hsave
      (rfl : (match (none : Option Int) with
        | some u => decide (env.now < u) | none => false) = false)
      (clean_phone_for_whatsapp data.recipientPhone)
      (rfl : ({ order with recipientPhone := some (clean_phone_for_whatsapp data.recipientPhone) } : Order).recipientPhone = some (clean_phone_for_whatsapp data.recipientPhone))
      hsend] at heq
    simp only [hS, Bool.false_eq_true, if_false]
    rw [heq]
    refine ⟨rfl, rfl, ?_, rfl, ?_⟩
    · simp [newMessageRow]
    · exact delivered_not_pending _ _ _ rfl
  · simp only [hS, if_true, hparse] at heq
    have hns : (match (some t : Option Int) with
        | some u => decide (env.now < u) | none => false) = false := by
      simp [not_lt.mpr hle]
    rw [save_inline_ok_outcome _ _ _ _ _ _ _ _ hsave hns
      (clean_phone_for_whatsapp data.recipientPhone)
      (rfl : ({ order with recipientPhone := some (clean_phone_for_whatsapp data.recipientPhone) } : Order).recipientPhone = some (clean_phone_for_whatsapp data.recipientPhone))
      hsend] at heq
    simp only [hS, if_true]
    rw [hparse, heq]
    refine ⟨rfl, rfl, ?_, rfl, ?_⟩
    · simp [newMessageRow]
    · exact delivered_not_pending _ _ _ rfl

/-- C2 checked on a concrete basic-plan submission with no scheduling. -/
theorem C2_inline_delivery_witness :
    (submit_form (some { id := "o1", formToken := "t1", plan := "basico", status := OrderStatus.approved }) [] { recipientPhone := "+55 (85) 99999-9999", message := "te amo" } { parseIso := fun _ => none, now := 0, createMessageOk := true, newMessageId := "m1", deliver := { sendSuccess := true } }).response = SubmitResponse.okResp 0
    ∧ (submit_form (some { id := "o1", formToken := "t1", plan := "basico", status := OrderStatus.approved }) [] { recipientPhone := "+55 (85) 99999-9999", message := "te amo" } { parseIso := fun _ => none, now := 0, createMessageOk := true, newMessageId := "m1", deliver := { sendSuccess := true } }).inlineDeliveryInvoked = true
    ∧ ({ id := "m1", orderId := "o1", messageIndex := 0, content := "te amo", senderNickname := "Alguem especial", audioText := none, scheduledAt := none, delivered := true, audioUrl := none } : Message) ∈ (submit_form (some { id := "o1", formToken := "t1", plan := "basico", status := OrderStatus.approved }) [] { recipientPhone := "+55 (85) 99999-9999", message := "te amo" } { parseIso := fun _ => none, now := 0, createMessageOk := true, newMessageId := "m1", deliver := { sendSuccess := true } }).messages
    ∧ ({ id := "m1", orderId := "o1", messageIndex := 0, content := "te amo", senderNickname := "Alguem especial", audioText := none, scheduledAt := none, delivered := true, audioUrl := none } : Message).delivered = true
    ∧ ({ id := "m1", orderId := "o1", messageIndex := 0, content := "te amo", senderNickname := "Alguem especial", audioText := none, scheduledAt := none, delivered := true, audioUrl := none } : Message) ∉ get_pending_scheduled_messages (submit_form (some { id := "o1", formToken := "t1", plan := "basico", status := OrderStatus.approved }) [] { recipientPhone := "+55 (85) 99999-9999", message := "te amo" } { parseIso := fun _ => none, now := 0, createMessageOk := true, newMessageId := "m1", deliver := { sendSuccess := true } }).messages 1000 :=
  C2_inline_delivery_excluded_from_sweep
    { id := "o1", formToken := "t1", plan := "basico", status := OrderStatus.approved }
    PlanType.basico []
    { recipientPhone := "+55 (85) 99999-9999", message := "te amo" }
    { parseIso := fun _ => none, now := 0, createMessageOk := true, newMessageId := "m1", deliver := { sendSuccess := true } }
    1000 (by decide) (by decide) (by decide) (by decide) (by decide) rfl rfl
    (Or.inl (by decide))

/-- C3: for a submission that carries a (truthy) scheduled_at string, an
unparseable string is rejected with the 400 invalid-schedule response and
no message row is created; a parse to a strictly future instant yields the
scheduled response without inline delivery; a parse to a non-future instant
yields the ok response after inline delivery. -/
theorem C3_scheduled_at_dispatch (order : Order) (pt : PlanType)
    (messages : List Message) (data : FormData) (env : SubmitEnv) (t : Int)
    (hplan : planTypeOfString order.plan = some pt)
    (hrem : ¬(((get_plan_config pt).max_messages : Int) - (order.messagesSent : Int) ≤ 0))
    (hphone : validate_phone data.recipientPhone = true)
    (hmsg : pyTruthy (pyStrip data.message) = true)
    (haudio : pyTruthy (pyStrip data.audioTextRaw) = false)
    (hsave : env.createMessageOk = true)
    (hS : pyTruthy (pyStrip data.scheduledAtRaw) = true) :
    (env.parseIso (pyStrip data.scheduledAtRaw) = none →
      (submit_form (some order) messages data env).response = .invalidSchedule
      ∧ SubmitResponse.statusCode .invalidSchedule = 400
      ∧ (submit_form (some order) messages data env).messages = messages)
    ∧ (env.parseIso (pyStrip data.scheduledAtRaw) = some t → env.now < t →
      (submit_form (some order) messages data env).response
        = .scheduledResp (((get_plan_config pt).max_messages : Int)
            - ((order.messagesSent + 1 : Nat) : Int))
      ∧ (submit_form (some order) messages data env).inlineDeliveryInvoked = false)
    ∧ (env.parseIso (pyStrip data.scheduledAtRaw) = some t → ¬(env.now < t) →
      env.deliver.sendSuccess = true →
      (submit_form (some order) messages data env).response
        = .okResp (((get_plan_config pt).max_messages : Int)
            - ((order.messagesSent + 1 : Nat) : Int))
      ∧ (submit_form (some order) messages data env).inlineDeliveryInvoked = true) := by
  have heq := submit_form_validated order pt messages data env
    hplan hrem hphone hmsg haudio
  simp only [hS, if_true] at heq
  refine ⟨?_, ?_, ?_⟩
  · intro hparse
    simp only [hparse] at heq
    rw [heq]
    exact ⟨rfl, rfl, rfl⟩
  · intro hparse ht
    simp only [hparse] at heq
    rw [save_scheduled_outcome _ _ _ _ _ _ _ _ hsave ht] at heq
    rw [heq]
    exact ⟨rfl, rfl⟩
  · intro hparse ht hsend
    simp only [hparse] at heq
    have hns : (match (some t : Option Int) with
        | some u => decide (env.now < u) | none => false) = false := by
      simp [ht]
    rw [save_inline_ok_outcome _ _ _ _ _ _ _ _ hsave hns
      (clean_phone_for_whatsapp data.recipientPhone)
      (rfl : ({ order with recipientPhone := some (clean_phone_for_whatsapp data.recipientPhone) } : Order).recipientPhone = some (clean_phone_for_whatsapp data.recipientPhone))
      hsend] at heq
    rw [heq]
    exact ⟨rfl, rfl⟩

/-- C3 checked on a concrete submission carrying an unparseable
scheduled_at string. -/
theorem C3_scheduled_at_witness :
    (((fun (_ : String) => (none : Option Int)) (pyStrip "not-a-date") = none →
      (submit_form (some { id := "o1", formToken := "t1", plan := "basico", status := OrderStatus.approved }) [] { recipientPhone := "+55 (85) 99999-9999", message := "te amo", scheduledAtRaw := "not-a-date" } { parseIso := fun _ => none, now := 0, createMessageOk := true, newMessageId := "m1", deliver := { sendSuccess := true } }).response = SubmitResponse.invalidSchedule
      ∧ SubmitResponse.statusCode SubmitResponse.invalidSchedule = 400
      ∧ (submit_form (some { id := "o1", formToken := "t1", plan := "basico", status := OrderStatus.approved }) [] { recipientPhone := "+55 (85) 99999-9999", message := "te amo", scheduledAtRaw := "not-a-date" } { parseIso := fun _ => none, now := 0, createMessageOk := true, newMessageId := "m1", deliver := { sendSuccess := true } }).messages = [])
    ∧ ((fun (_ : String) => (none : Option Int)) (pyStrip "not-a-date") = some 50 →
      (0 : Int) < 50 →
      (submit_form (some { id := "o1", formToken := "t1", plan := "basico", status := OrderStatus.approved }) [] { recipientPhone := "+55 (85) 99999-9999", message := "te amo", scheduledAtRaw := "not-a-date" } { parseIso := fun _ => none, now := 0, createMessageOk := true, newMessageId := "m1", deliver := { sendSuccess := true } }).response = SubmitResponse.scheduledResp 0
      ∧ (submit_form (some { id := "o1", formToken := "t1", plan := "basico", status := OrderStatus.approved }) [] { recipientPhone := "+55 (85) 99999-9999", message := "te amo", scheduledAtRaw := "not-a-date" } { parseIso := fun _ => none, now := 0, createMessageOk := true, newMessageId := "m1", deliver := { sendSuccess := true } }).inlineDeliveryInvoked = false)
    ∧ ((fun (_ : String) => (none : Option Int)) (pyStrip "not-a-date") = some 50 →
      ¬((0 : Int) < 50) →
      true = true →
      (submit_form (some { id := "o1", formToken := "t1", plan := "basico", status := OrderStatus.approved }) [] { recipientPhone := "+55 (85) 99999-9999", message := "te amo", scheduledAtRaw := "not-a-date" } { parseIso := fun _ => none, now := 0, createMessageOk := true, newMessageId := "m1", deliver := { sendSuccess := true } }).response = SubmitResponse.okResp 0
      ∧ (submit_form (some { id := "o1", formToken := "t1", plan := "basico", status := OrderStatus.approved }) [] { recipientPhone := "+55 (85) 99999-9999", message := "te amo", scheduledAtRaw := "not-a-date" } { parseIso := fun _ => none, now := 0, createMessageOk := true, newMessageId := "m1", deliver := { sendSuccess := true } }).inlineDeliveryInvoked = true)) :=
  C3_scheduled_at_dispatch
    { id := "o1", formToken := "t1", plan := "basico", status := OrderStatus.approved }
    PlanType.basico []
    { recipientPhone := "+55 (85) 99999-9999", message := "te amo", scheduledAtRaw := "not-a-date" }
    { parseIso := fun _ => none, now := 0, createMessageOk := true, newMessageId := "m1", deliver := { sendSuccess := true } }
    50 (by decide) (by decide) (by decide) (by decide) (by decide) rfl (by decide)

/- ── claim C4: the messages_sent counter ─────────────────────────────── -/

/-- A submission response that signals success
(`{status: ok}` or `{status: scheduled}`). -/
def isSuccess : SubmitResponse → Bool
  | .okResp _ => true
  | .scheduledResp _ => true
  | _ => false

/-- Repeated form submissions: thread the order row and the message table
through successive `submit_form` calls; the boolean records whether every
response was a success. -/
def runSubmits : Option Order → List Message → List (FormData × SubmitEnv) →
    Option Order × List Message × Bool
  | orderRow, msgs, [] => (orderRow, msgs, true)
  | orderRow, msgs, step :: rest =>
    let out := submit_form orderRow msgs step.1 step.2
    let r := runSubmits out.order out.messages rest
    (r.1, r.2.1, isSuccess out.response && r.2.2)

/-- The save-and-deliver tail either fails or returns an order row whose
counter is bumped by exactly one. -/
lemma save_step_count (order : Order) (cfg : PlanConfig) (sent : Nat)
    (messages : List Message) (data : FormData) (audio_text : Option String)
    (env : SubmitEnv) (sdt : Option Int) :
    isSuccess (submit_save_and_deliver order cfg sent messages data
        audio_text env sdt).response = false
    ∨ ∃ o2, (submit_save_and_deliver order cfg sent messages data
          audio_text env sdt).order = some o2
        ∧ o2.messagesSent = sent + 1 := by
  unfold submit_save_and_deliver
  rcases hc : env.createMessageOk with _ | _
  · left
    simp [hc, isSuccess]
  · simp only [hc, Bool.not_true, Bool.false_eq_true, if_false]
    split
    · right
      refine ⟨_, rfl, ?_⟩
      split <;> rfl
    · split
      · left; rfl
      · right
        refine ⟨_, rfl, ?_⟩
        split <;> rfl

/-- One `submit_form` call either fails or bumps the counter by one. -/
lemma submit_step_count (o : Order) (msgs : List Message) (d : FormData)
    (e : SubmitEnv) :
    isSuccess (submit_form (some o) msgs d e).response = false
    ∨ ∃ o2, (submit_form (some o) msgs d e).order = some o2
        ∧ o2.messagesSent = o.messagesSent + 1 := by
  unfold submit_form
  rcases hpt : planTypeOfString o.plan with _ | pt
  · left
    simp [hpt, isSuccess]
  · simp only [hpt]
    repeat' split
    all_goals first
      | exact save_step_count _ _ _ _ _ _ _ _
      | (left; rfl)

/-- A run of N all-successful submissions adds N to the counter. -/
lemma runSubmits_count (steps : List (FormData × SubmitEnv)) :
    ∀ (o : Order) (msgs : List Message) (o2 : Order) (msgs2 : List Message),
    runSubmits (some o) msgs steps = (some o2, msgs2, true) →
    o2.messagesSent = o.messagesSent + steps.length := by
  induction steps with
  | nil =>
    intro o msgs o2 msgs2 h
    simp only [runSubmits, Prod.mk.injEq, Option.some.injEq] at h
    obtain ⟨h1, -, -⟩ := h
    subst h1
    simp
  | cons step rest ih =>
    intro o msgs o2 msgs2 h
    simp only [runSubmits, Prod.mk.injEq, Bool.and_eq_true] at h
    obtain ⟨h1, h2, hs1, hs2⟩ := h
    rcases submit_step_count o msgs step.1 step.2 with hf | ⟨o1, ho1, hcount⟩
    · rw [hf] at hs1
      cases hs1
    · have hr : runSubmits (submit_form (some o) msgs step.1 step.2).order
          (submit_form (some o) msgs step.1 step.2).messages rest
          = (some o2, msgs2, true) :=
        Prod.ext_iff.mpr ⟨h1, Prod.ext_iff.mpr ⟨h2, hs2⟩⟩
      rw [ho1] at hr
      have hrec := ih o1 (submit_form (some o) msgs step.1 step.2).messages o2 msgs2 hr
      rw [hrec, hcount]
      simp only [List.length_cons]
      omega

/-- C4: starting from a fresh order, after a run of N all-successful
submissions `messages_sent` equals N; and a submission arriving when
`messages_sent` has reached the plan's `max_messages` is rejected with the
400 limit response, leaving the message table and the order untouched. -/
theorem C4_counter_and_limit (order : Order) (msgs msgs2 : List Message)
    (steps : List (FormData × SubmitEnv)) (o2 : Order) (o3 : Order)
    (pt : PlanType) (msgs3 : List Message) (d : FormData) (e : SubmitEnv)
    (h0 : order.messagesSent = 0)
    (hrun : runSubmits (some order) msgs steps = (some o2, msgs2, true))
    (hpt3 : planTypeOfString o3.plan = some pt)
    (hmax : (get_plan_config pt).max_messages ≤ o3.messagesSent) :
    o2.messagesSent = steps.length
    ∧ (submit_form (some o3) msgs3 d e).response = .limitReached
    ∧ SubmitResponse.statusCode .limitReached = 400
    ∧ (submit_form (some o3) msgs3 d e).messages = msgs3
    ∧ (submit_form (some o3) msgs3 d e).order = some o3 := by
  have hle : ((get_plan_config pt).max_messages : Int) - (o3.messagesSent : Int) ≤ 0 := by
    omega
  have hout : submit_form (some o3) msgs3 d e
      = ⟨.limitReached, some o3, msgs3, false⟩ := by
    simp [submit_form, hpt3, hle]
  have hcnt := runSubmits_count steps order msgs o2 msgs2 hrun
  refine ⟨by rw [hcnt, h0, Nat.zero_add], by rw [hout], rfl, by rw [hout], by rw [hout]⟩

/-- C4 checked on one successful basic-plan submission followed by an
attempt on a maxed-out order. -/
theorem C4_counter_and_limit_witness :
    ({ id := "o1", formToken := "t1", plan := "basico", status := OrderStatus.delivered, recipientPhone := some "5585999999999", messagesSent := 1, deliveredAtSet := true } : Order).messagesSent = 1
    ∧ (submit_form (some { id := "o2", formToken := "t2", plan := "basico", status := OrderStatus.delivered, messagesSent := 1 }) [] { recipientPhone := "+55 (85) 99999-9999", message := "oi de novo" } { parseIso := fun _ => none, now := 0, createMessageOk := true, newMessageId := "m9", deliver := { sendSuccess := true } }).response = .limitReached
    ∧ SubmitResponse.statusCode .limitReached = 400
    ∧ (submit_form (some { id := "o2", formToken := "t2", plan := "basico", status := OrderStatus.delivered, messagesSent := 1 }) [] { recipientPhone := "+55 (85) 99999-9999", message := "oi de novo" } { parseIso := fun _ => none, now := 0, createMessageOk := true, newMessageId := "m9", deliver := { sendSuccess := true } }).messages = []
    ∧ (submit_form (some { id := "o2", formToken := "t2", plan := "basico", status := OrderStatus.delivered, messagesSent := 1 }) [] { recipientPhone := "+55 (85) 99999-9999", message := "oi de novo" } { parseIso := fun _ => none, now := 0, createMessageOk := true, newMessageId := "m9", deliver := { sendSuccess := true } }).order = some { id := "o2", formToken := "t2", plan := "basico", status := OrderStatus.delivered, messagesSent := 1 } :=
  C4_counter_and_limit
    { id := "o1", formToken := "t1", plan := "basico", status := OrderStatus.approved }
    [] [{ id := "m1", orderId := "o1", messageIndex := 0, content := "te amo", senderNickname := "Alguem especial", audioText := none, scheduledAt := none, delivered := true, audioUrl := none }]
    [({ recipientPhone := "+55 (85) 99999-9999", message := "te amo" },
      { parseIso := fun _ => none, now := 0, createMessageOk := true, newMessageId := "m1", deliver := { sendSuccess := true } })]
    { id := "o1", formToken := "t1", plan := "basico", status := OrderStatus.delivered, recipientPhone := some "5585999999999", messagesSent := 1, deliveredAtSet := true }
    { id := "o2", formToken := "t2", plan := "basico", status := OrderStatus.delivered, messagesSent := 1 }
    PlanType.basico []
    { recipientPhone := "+55 (85) 99999-9999", message := "oi de novo" }
    { parseIso := fun _ => none, now := 0, createMessageOk := true, newMessageId := "m9", deliver := { sendSuccess := true } }
    rfl (by decide) (by decide) (by decide)

/- ── claim C10 ───────────────────────────────────────────────────────── -/

/-- C10: `clean_phone_for_whatsapp` prepends `"55"` exactly when the digit
string remaining after stripping the WhatsApp suffixes and every non-digit
character has length 10 or 11; for any other digit count the digits are
returned unchanged. -/
theorem C10_clean_phone_country_code (phone : String) :
    clean_phone_for_whatsapp phone =
      (if (digitsAfterStrip phone).data.length = 10
          ∨ (digitsAfterStrip phone).data.length = 11
       then "55" ++ digitsAfterStrip phone
       else digitsAfterStrip phone) := by
  simp only [clean_phone_for_whatsapp, digitsAfterStrip]
  split_ifs <;> first | rfl | omega

/- ── smoke test of the validators (claim C7) ─────────────────────────── -/

/-- C7: the phone `"+55 (85) 99999-9999"` passes validation and normalizes
to exactly `"5585999999999"`, while `"123"` is rejected as too short. -/
theorem C7_phone_validation :
    validate_phone "+55 (85) 99999-9999" = true
    ∧ clean_phone_for_whatsapp "+55 (85) 99999-9999" = "5585999999999"
    ∧ validate_phone "123" = false := by
  refine ⟨by decide, by decide, by decide⟩

/-- C1 (counterexample): with a recipient phone present and EVERY transport
send failing, `deliver_com_audio` and `deliver_multi` still return `True`
and mark the order delivered with `delivered_at` stamped — refuting the
claim that no delivery path marks delivered state when every transport send
has failed. -/
theorem C1_counterexample :
    deliver_com_audio
        { id := "o1", formToken := "t1", plan := "com_audio",
          status := OrderStatus.approved, recipientPhone := some "5585999999999" }
        "oi" "Cupido" []
        { sendTextSuccess := false, audioUrl := none, sendAudioSuccess := false }
      = (true,
         { id := "o1", formToken := "t1", plan := "com_audio",
           status := OrderStatus.delivered, recipientPhone := some "5585999999999",
           deliveredAtSet := true }, [])
    ∧ deliver_multi
        { id := "o2", formToken := "t2", plan := "multi_mensagem",
          status := OrderStatus.approved, recipientPhone := some "5585999999999" }
        []
        { sendResults := [false, false] }
      = (true,
         { id := "o2", formToken := "t2", plan := "multi_mensagem",
           status := OrderStatus.delivered, recipientPhone := some "5585999999999",
           deliveredAtSet := true }) := ⟨rfl, rfl⟩

/-- C1 (amended): `deliver_basico` and `deliver_premium` set the order's
status to delivered only after the transport gateway confirms a successful
send, but `deliver_com_audio` and `deliver_multi` mark the order delivered
(and return success) unconditionally once a recipient phone is present,
even when every transport send has failed. -/
theorem C1_amended_delivery_gating (order : Order) (mt sn pid : String)
    (msgs : List Message) (envB : BasicoEnv) (envA : ComAudioEnv)
    (envM : MultiEnv) (envP : PremiumEnv)
    (hnd : order.status ≠ OrderStatus.delivered)
    (r : String) (hr : order.recipientPhone = some r) :
    ((deliver_basico order mt sn envB).2.status = OrderStatus.delivered →
        envB.sendTextSuccess = true)
    ∧ ((deliver_premium order pid envP).2.status = OrderStatus.delivered →
        envP.sendTextSuccess = true)
    ∧ (deliver_com_audio order mt sn msgs envA).2.1.status = OrderStatus.delivered
    ∧ (deliver_com_audio order mt sn msgs envA).1 = true
    ∧ (deliver_multi order msgs envM).2.status = OrderStatus.delivered
    ∧ (deliver_multi order msgs envM).1 = true := by
  refine ⟨?_, ?_, ?_, ?_, ?_, ?_⟩
  · intro h
    cases hB : envB.sendTextSuccess
    · simp [deliver_basico, hr, hB] at h
      exact absurd h hnd
    · rfl
  · intro h
    cases hP : envP.sendTextSuccess
    · simp [deliver_premium, hr, hP] at h
      exact absurd h hnd
    · rfl
  · simp [deliver_com_audio, hr]
  · simp [deliver_com_audio, hr]
  · simp [deliver_multi, hr]
  · simp [deliver_multi, hr]

/-- C1 amended claim, checked on a concrete order with all sends failing. -/
theorem C1_amended_witness :
    ((deliver_basico
        { id := "o1", formToken := "t1", plan := "basico",
          status := OrderStatus.approved, recipientPhone := some "5585999999999" }
        "oi" "Cupido" { sendTextSuccess := false }).2.status = OrderStatus.delivered →
        ({ sendTextSuccess := false : BasicoEnv }).sendTextSuccess = true)
    ∧ ((deliver_premium
        { id := "o1", formToken := "t1", plan := "basico",
          status := OrderStatus.approved, recipientPhone := some "5585999999999" }
        "p1" { sendTextSuccess := false }).2.status = OrderStatus.delivered →
        ({ sendTextSuccess := false : PremiumEnv }).sendTextSuccess = true)
    ∧ (deliver_com_audio
        { id := "o1", formToken := "t1", plan := "basico",
          status := OrderStatus.approved, recipientPhone := some "5585999999999" }
        "oi" "Cupido" []
        { sendTextSuccess := false, audioUrl := none,
          sendAudioSuccess := false }).2.1.status = OrderStatus.delivered
    ∧ (deliver_com_audio
        { id := "o1", formToken := "t1", plan := "basico",
          status := OrderStatus.approved, recipientPhone := some "5585999999999" }
        "oi" "Cupido" []
        { sendTextSuccess := false, audioUrl := none,
          sendAudioSuccess := false }).1 = true
    ∧ (deliver_multi
        { id := "o1", formToken := "t1", plan := "basico",
          status := OrderStatus.approved, recipientPhone := some "5585999999999" }
        [] { sendResults := [false] }).2.status = OrderStatus.delivered
    ∧ (deliver_multi
        { id := "o1", formToken := "t1", plan := "basico",
          status := OrderStatus.approved, recipientPhone := some "5585999999999" }
        [] { sendResults := [false] }).1 = true :=
  C1_amended_delivery_gating
    { id := "o1", formToken := "t1", plan := "basico",
      status := OrderStatus.approved, recipientPhone := some "5585999999999" }
    "oi" "Cupido" "p1" [] { sendTextSuccess := false }
    { sendTextSuccess := false, audioUrl := none, sendAudioSuccess := false }
    { sendResults := [false] } { sendTextSuccess := false }
    (by decide) "5585999999999" rfl

/-- C5 (code bug, failing input): on plan `com_audio`, a submission with a
valid phone, a non-empty message and the two-character synthesis text
`"oi"` is answered with the 500 AttributeError response — not a 400 naming
the limit — because `plan_config.audio_char_limit` (form.py:98) does not
exist on the `PlanConfig` dataclass; no message row is created. -/
theorem C5_audio_limit_attribute_error :
    (submit_form
        (some { id := "o1", formToken := "t1", plan := "com_audio",
                status := OrderStatus.approved })
        []
        { recipientPhone := "+55 (85) 99999-9999", message := "te amo",
          audioTextRaw := "oi" }
        { parseIso := fun _ => none, now := 0, createMessageOk := true,
          newMessageId := "m1", deliver := { sendSuccess := true } }).response
      = SubmitResponse.audioAttrError
    ∧ SubmitResponse.statusCode SubmitResponse.audioAttrError = 500
    ∧ (submit_form
        (some { id := "o1", formToken := "t1", plan := "com_audio",
                status := OrderStatus.approved })
        []
        { recipientPhone := "+55 (85) 99999-9999", message := "te amo",
          audioTextRaw := "oi" }
        { parseIso := fun _ => none, now := 0, createMessageOk := true,
          newMessageId := "m1", deliver := { sendSuccess := true } }).messages
      = [] := by
  refine ⟨by decide, rfl, by decide⟩

/-- C6: in `generate_send_and_cleanup` the external effects occur in the
order generate → upload → send (every reachable trace is a prefix of that
chain), the storage delete happens exactly when all three steps ran and the
send succeeded, and on a failed send the uploaded file stays in storage. -/
theorem C6_audio_flow_order_and_cleanup (order_id rp : String) (idx : Nat)
    (env : AudioFlowEnv) (storage : List String)
    (hst : audioStoragePath order_id idx ∉ storage) :
    ((generate_send_and_cleanup order_id rp idx env storage).2.2
        = [AudioEvent.generate]
      ∨ (generate_send_and_cleanup order_id rp idx env storage).2.2
        = [AudioEvent.generate, AudioEvent.upload]
      ∨ (generate_send_and_cleanup order_id rp idx env storage).2.2
        = [AudioEvent.generate, AudioEvent.upload, AudioEvent.send]
      ∨ (generate_send_and_cleanup order_id rp idx env storage).2.2
        = [AudioEvent.generate, AudioEvent.upload, AudioEvent.send,
           AudioEvent.deleteFile])
    ∧ (AudioEvent.deleteFile ∈ (generate_send_and_cleanup order_id rp idx env storage).2.2
        ↔ env.generateOk = true ∧ env.uploadUrl.isSome = true ∧ env.sendSuccess = true)
    ∧ (env.generateOk = true → ∀ u, env.uploadUrl = some u →
        (env.sendSuccess = true →
          (generate_send_and_cleanup order_id rp idx env storage).2.1 = storage)
        ∧ (env.sendSuccess = false →
          audioStoragePath order_id idx
            ∈ (generate_send_and_cleanup order_id rp idx env storage).2.1)) := by
  have herase : (storage ++ [audioStoragePath order_id idx]).erase
      (audioStoragePath order_id idx) = storage := by
    rw [List.erase_append_right _ hst, List.erase_cons_head, List.append_nil]
  rcases env with ⟨g, u, s⟩
  cases g <;> cases s <;> rcases u with _ | u' <;>
    simp [generate_send_and_cleanup, herase]

/-- C6 checked on a concrete flow with empty storage. -/
theorem C6_audio_flow_witness :
    ((generate_send_and_cleanup "o1" "5585999999999" 0
        { generateOk := true, uploadUrl := some "http://u", sendSuccess := false }
        []).2.2 = [AudioEvent.generate]
      ∨ (generate_send_and_cleanup "o1" "5585999999999" 0
        { generateOk := true, uploadUrl := some "http://u", sendSuccess := false }
        []).2.2 = [AudioEvent.generate, AudioEvent.upload]
      ∨ (generate_send_and_cleanup "o1" "5585999999999" 0
        { generateOk := true, uploadUrl := some "http://u", sendSuccess := false }
        []).2.2 = [AudioEvent.generate, AudioEvent.upload, AudioEvent.send]
      ∨ (generate_send_and_cleanup "o1" "5585999999999" 0
        { generateOk := true, uploadUrl := some "http://u", sendSuccess := false }
        []).2.2 = [AudioEvent.generate, AudioEvent.upload, AudioEvent.send,
                   AudioEvent.deleteFile])
    ∧ (AudioEvent.deleteFile ∈ (generate_send_and_cleanup "o1" "5585999999999" 0
          { generateOk := true, uploadUrl := some "http://u", sendSuccess := false }
          []).2.2
        ↔ ({ generateOk := true, uploadUrl := some "http://u",
             sendSuccess := false : AudioFlowEnv }).generateOk = true
          ∧ ({ generateOk := true, uploadUrl := some "http://u",
               sendSuccess := false : AudioFlowEnv }).uploadUrl.isSome = true
          ∧ ({ generateOk := true, uploadUrl := some "http://u",
               sendSuccess := false : AudioFlowEnv }).sendSuccess = true)
    ∧ (({ generateOk := true, uploadUrl := some "http://u",
          sendSuccess := false : AudioFlowEnv }).generateOk = true →
        ∀ u, ({ generateOk := true, uploadUrl := some "http://u",
                sendSuccess := false : AudioFlowEnv }).uploadUrl = some u →
        (({ generateOk := true, uploadUrl := some "http://u",
            sendSuccess := false : AudioFlowEnv }).sendSuccess = true →
          (generate_send_and_cleanup "o1" "5585999999999" 0
            { generateOk := true, uploadUrl := some "http://u", sendSuccess := false }
            []).2.1 = [])
        ∧ (({ generateOk := true, uploadUrl := some "http://u",
              sendSuccess := false : AudioFlowEnv }).sendSuccess = false →
          audioStoragePath "o1" 0
            ∈ (generate_send_and_cleanup "o1" "5585999999999" 0
              { generateOk := true, uploadUrl := some "http://u", sendSuccess := false }
              []).2.1)) :=
  C6_audio_flow_order_and_cleanup "o1" "5585999999999" 0
    { generateOk := true, uploadUrl := some "http://u", sendSuccess := false }
    [] (by decide)

/-- C8: a premium upload on a live order with a valid phone whose file list
yields zero uploaded images is rejected with the 400 "Nenhuma imagem
enviada" response; no presentation row is created, the order is untouched
and no message row is created. -/
theorem C8_premium_zero_images (order : Order) (data : UploadForm)
    (presentations : List Presentation) (messages : List Message)
    (env : UploadEnv)
    (hstatus : ¬(order.status = OrderStatus.submitted
                  ∨ order.status = OrderStatus.delivered))
    (hphone : validate_phone data.recipientPhone = true)
    (hslides : buildSlides data.files (data.captionsParse.getD []) = []) :
    upload_premium (some order) data presentations messages env
      = ⟨.noImages, some order, presentations, messages⟩
    ∧ UploadResponse.statusCode .noImages = 400 := by
  refine ⟨?_, rfl⟩
  simp [upload_premium, hstatus, hphone, hslides]

/-- C8 checked on a concrete premium order with an empty file list. -/
theorem C8_premium_zero_images_witness :
    upload_premium
        (some { id := "o1", formToken := "t1", plan := "premium_historia",
                status := OrderStatus.approved })
        { recipientPhone := "+55 (85) 99999-9999", files := [] }
        [] []
        { createPresentationOk := true, newPresentationId := "p1",
          createMessageOk := true, newMessageId := "m1" }
      = ⟨.noImages,
         some { id := "o1", formToken := "t1", plan := "premium_historia",
                status := OrderStatus.approved },
         [], []⟩
    ∧ UploadResponse.statusCode .noImages = 400 :=
  C8_premium_zero_images
    { id := "o1", formToken := "t1", plan := "premium_historia",
      status := OrderStatus.approved }
    { recipientPhone := "+55 (85) 99999-9999", files := [] }
    [] []
    { createPresentationOk := true, newPresentationId := "p1",
      createMessageOk := true, newMessageId := "m1" }
    (by decide) (by decide) (by decide)

/-- C9: when an approved-event webhook arrives whose payload carries a buyer
phone and a sale id for which an order already exists, the route answers 200
with the existing order's id and token, and the order table is unchanged —
order creation is idempotent per sale id. -/
theorem C9_webhook_idempotent_per_sale (payload : WebhookPayload)
    (orders : List Order) (env : CreateOrderEnv) (existing : Order)
    (happr : (approved_events.any (fun e =>
        containsSub (if pyTruthy payload.event then pyLower payload.event else "") e))
      = true)
    (hphone : pyTruthy (pyOrStr (payload.customer.getD {}).phone payload.customerPhone)
      = true)
    (hsale : pyTruthy payload.saleId = true)
    (hex : get_order_by_sale_id orders payload.saleId = some existing) :
    webhook_lowify payload orders env
      = (.okCreated existing.id existing.formToken, orders)
    ∧ create_order_from_webhook payload orders env = (some existing, orders) := by
  have h2 : create_order_from_webhook payload orders env = (some existing, orders) := by
    simp [create_order_from_webhook, hphone, hsale, hex]
  exact ⟨by simp [webhook_lowify, happr, h2], h2⟩

/-- C9 checked on a repeated `sale.approved` webhook for sale `s1`. -/
theorem C9_webhook_idempotent_witness :
    webhook_lowify
        { event := "sale.approved", saleId := "s1",
          customerPhone := "+55 (85) 99999-9999" }
        [{ id := "o1", formToken := "t1", saleId := some "s1", plan := "basico",
           status := OrderStatus.approved }]
        { newOrderId := "o2", newFormToken := "t2", createOrderOk := true }
      = (.okCreated "o1" "t1",
         [{ id := "o1", formToken := "t1", saleId := some "s1", plan := "basico",
            status := OrderStatus.approved }])
    ∧ create_order_from_webhook
        { event := "sale.approved", saleId := "s1",
          customerPhone := "+55 (85) 99999-9999" }
        [{ id := "o1", formToken := "t1", saleId := some "s1", plan := "basico",
           status := OrderStatus.approved }]
        { newOrderId := "o2", newFormToken := "t2", createOrderOk := true }
      = (some { id := "o1", formToken := "t1", saleId := some "s1", plan := "basico",
                status := OrderStatus.approved },
         [{ id := "o1", formToken := "t1", saleId := some "s1", plan := "basico",
            status := OrderStatus.approved }]) :=
  C9_webhook_idempotent_per_sale
    { event := "sale.approved", saleId := "s1",
      customerPhone := "+55 (85) 99999-9999" }
    [{ id := "o1", formToken := "t1", saleId := some "s1", plan := "basico",
       status := OrderStatus.approved }]
    { newOrderId := "o2", newFormToken := "t2", createOrderOk := true }
    { id := "o1", formToken := "t1", saleId := some "s1", plan := "basico",
      status := OrderStatus.approved }
    (by decide) (by decide) (by decide) (by decide)
